import Mathlib

/-!
The REST router of go-wx-gateway (`router.go`).

A shallow embedding of `router.go`: the startup routine `StartWxGateway`, the registry
`wxParamsCache`, and the four auxiliary handlers `createWxQr`, `getWxUserInfo`, `snsAPI`
and `createShorturl`, with `writeJson` / `writeError`.

Conventions of the embedding.

* Go strings are Lean `String`s; `len(s) > 0` and `s != ""` are both `s ≠ ""`.
* Go `int` is `Int`; the only arithmetic on it is the comparison `expireSecs <= 0`.
* A Go result `(T, error)` whose value is dropped on error is `Except String T`, the
  `String` being `err.Error()`.  Where the value is used whatever the error is
  (`GetInfoByAccessToken` in `snsAPI`) the result is a pair.
* The upstream SDK (`go-wx-api`) and `wx-gateway/handlers` are external collaborators:
  their functions are the fields of `Upstream`.  Every invocation of one of them by a
  handler is recorded, in order, in the list of `Call`s the handler returns.
* `http.ResponseWriter` is the record `ResponseWriter`; a handler maps the writer it is
  given to the writer it leaves behind.
* The negroni stack and the router are the lists of `api.Use` and `router.Get` /
  `router.Post` calls, in the order `StartWxGateway` makes them.  Serving a request
  (`apiServe`, `routerServe`) runs the stack in that order and lets the route registered
  first for the method and the path answer; paths are compared as plain strings.
-/

namespace WxGateway

/-! ## Wire-level data -/

/-- The `*wxconf.WxParamsT` of the SDK: the credentials of one service. -/
structure WxParamsT where
  Token : String
  AppId : String
  AppSecret : String
  AesKey : String
deriving DecidableEq, Repr

/-- User information as delivered by the upstream platform (a JSON object the gateway
passes through untouched). -/
structure UserInfoT where
  fields : List (String × String)
deriving DecidableEq, Repr

/-- The values the handlers put into a `map[string]interface{}` before encoding. -/
inductive JsonValue where
  | null
  | int (n : Int)
  | string (s : String)
  | stringMap (m : List (String × String))
  | userInfo (u : UserInfoT)
deriving DecidableEq, Repr

/-- A `map[string]interface{}` literal: its members, in the order of the source. -/
abbrev JsonObject := List (String × JsonValue)

/-- What is written to the body of a response. -/
inductive Body where
  | json (data : JsonObject)
  | text (s : String)
deriving DecidableEq, Repr

/-- The `http.ResponseWriter`: the header map, the status line (absent until written) and
the chunks written to the body. -/
structure ResponseWriter where
  header : List (String × String)
  status : Option Nat
  body : List Body
deriving DecidableEq, Repr

/-- A writer nothing has been written to. -/
def ResponseWriter.fresh : ResponseWriter :=
  { header := [], status := none, body := [] }

/-- Go `w.Header().Set(key, value)`. -/
def ResponseWriter.HeaderSet (w : ResponseWriter) (key value : String) : ResponseWriter :=
  { w with header := (key, value) :: w.header.filter (fun kv => kv.1 ≠ key) }

/-- Go `w.WriteHeader(code)`: the first status written stands. -/
def ResponseWriter.WriteHeader (w : ResponseWriter) (code : Nat) : ResponseWriter :=
  match w.status with
  | none => { w with status := some code }
  | some _ => w

/-- Go `w.Write(..)`: writes the status 200 first when none has been written. -/
def ResponseWriter.Write (w : ResponseWriter) (b : Body) : ResponseWriter :=
  let w1 := w.WriteHeader 200
  { w1 with body := w1.body ++ [b] }

/-- The request, as far as the handlers read it: the form values, first match first. -/
structure Request where
  form : List (String × String)
deriving DecidableEq, Repr

/-- Go `r.FormValue(key)`: the first value of the key, `""` when there is none. -/
def Request.FormValue (r : Request) (key : String) : String :=
  match r.form.find? (fun kv => kv.1 = key) with
  | some kv => kv.2
  | none => ""

def StatusOK : Nat := 200
def StatusBadRequest : Nat := 400
def StatusInternalServerError : Nat := 500

/-! ## `writeJson` and `writeError` -/

/-- Function `writeJson(w, code, data)`. -/
def writeJson (w : ResponseWriter) (code : Nat) (data : JsonObject) : ResponseWriter :=
  let w := w.HeaderSet "Content-Type" "application/json"
  let w := w.WriteHeader code
  w.Write (Body.json data)

/-- Function `writeError(w, code, msg)`. -/
def writeError (w : ResponseWriter) (code : Nat) (msg : String) : ResponseWriter :=
  writeJson w code [("code", JsonValue.int code), ("msg", JsonValue.string msg)]

/-! ## `strconv.Atoi` -/

/-- How the scan of the digits of `strconv.ParseUint(s, 10, 64)` ends. -/
inductive ParseUintResult where
  | value (n : Nat)
  | badDigit
  | overflow
deriving DecidableEq, Repr

/-- The scan of the digits, left to right: a byte that is not a decimal digit ends it with
a syntax error, a value that no longer fits 64 bits with a range error. -/
def parseDigits : List Char → Nat → ParseUintResult
  | [], n => ParseUintResult.value n
  | c :: cs, n =>
    if 48 ≤ c.toNat ∧ c.toNat ≤ 57 then
      if n * 10 + (c.toNat - 48) ≥ 2 ^ 64 then ParseUintResult.overflow
      else parseDigits cs (n * 10 + (c.toNat - 48))
    else ParseUintResult.badDigit

/-- Go `strconv.Atoi` for a 64-bit `int`: the value returned and whether the error is nil.
One leading sign is accepted; a syntax error gives 0, a value out of the range of `int`
the nearest bound. -/
def Atoi (s : String) : Int × Bool :=
  let neg := s.data.head? = some '-'
  let ds := if s.data.head? = some '-' ∨ s.data.head? = some '+' then s.data.tail else s.data
  match ds with
  | [] => (0, false)
  | _ =>
    match parseDigits ds 0 with
    | ParseUintResult.badDigit => (0, false)
    | ParseUintResult.overflow => if neg then (-(2 ^ 63), false) else (2 ^ 63 - 1, false)
    | ParseUintResult.value n =>
      if neg then
        if n > 2 ^ 63 then (-(2 ^ 63), false) else (-(n : Int), true)
      else
        if n ≥ 2 ^ 63 then (2 ^ 63 - 1, false) else ((n : Int), true)

/-! ## The external collaborators -/

/-- The functions of the SDK and of `wx-gateway/handlers` that `router.go` calls.  The
methods of a `wxauth.WxUser` are functions of the parameters and the code the user object
was built from; `GetInfo` yields the field `wxUser.UserInfo` it leaves behind.
`SignatureValid token timeout r` is the verdict of the signature check that a checker made
by `wxapi.NewWxSignatureChecker(token, timeout, ..)` runs on a request. -/
structure Upstream where
  NewWxParams : String → String → String → String → Except String WxParamsT
  AccessTokenGet : WxParamsT → Except String String
  CreateTempQrStrScene : String → String → Int → Except String (String × String)
  CreateQrStrScene : String → String → Except String (String × String)
  GetUserInfo : WxParamsT → String → Except String UserInfoT
  GetOpenId : WxParamsT → String → Except String String
  GetInfoByAccessToken : WxParamsT → String → Option UserInfoT × Option String
  GetInfo : WxParamsT → String → Except String (Option UserInfoT)
  MakeShorturl : String → String → Except String String
  SignatureValid : String → Int → Request → Bool

/-- One invocation of an external collaborator by a handler, with its arguments. -/
inductive Call where
  | AccessTokenGet (wxParams : WxParamsT)
  | CreateTempQrStrScene (accessToken sceneid : String) (expireSecs : Int)
  | CreateQrStrScene (accessToken sceneid : String)
  | GetUserInfo (wxParams : WxParamsT) (openId : String)
  | GetOpenId (wxParams : WxParamsT) (code : String)
  | GetInfoByAccessToken (wxParams : WxParamsT) (code : String)
  | GetInfo (wxParams : WxParamsT) (code : String)
  | MakeShorturl (accessToken longUrl : String)
deriving DecidableEq, Repr

/-- Whether the collaborator returns a nil error on the call. -/
def Call.succeeds (up : Upstream) : Call → Bool
  | .AccessTokenGet p => (up.AccessTokenGet p).toBool
  | .CreateTempQrStrScene t s e => (up.CreateTempQrStrScene t s e).toBool
  | .CreateQrStrScene t s => (up.CreateQrStrScene t s).toBool
  | .GetUserInfo p o => (up.GetUserInfo p o).toBool
  | .GetOpenId p c => (up.GetOpenId p c).toBool
  | .GetInfoByAccessToken p c => (up.GetInfoByAccessToken p c).2.isNone
  | .GetInfo p c => (up.GetInfo p c).toBool
  | .MakeShorturl t u => (up.MakeShorturl t u).toBool

/-! ## The registry `wxParamsCache` -/

/-- The map `wxParamsCache`, from service name to parameters. -/
abbrev ParamsCache := List (String × WxParamsT)

/-- Go `wxParamsCache[name]` read with the comma-ok form. -/
def ParamsCache.get (cache : ParamsCache) (name : String) : Option WxParamsT :=
  match cache.find? (fun kv => kv.1 = name) with
  | some kv => some kv.2
  | none => none

/-- Go `wxParamsCache[name] = wxParams`: an entry of the same name is replaced. -/
def ParamsCache.set (cache : ParamsCache) (name : String) (wxParams : WxParamsT) : ParamsCache :=
  (name, wxParams) :: cache.filter (fun kv => kv.1 ≠ name)

/-- What a handler leaves behind: the writer and the calls it made, in order. -/
abbrev HandlerResult := ResponseWriter × List Call

/-! ## `createWxQr` -/

/-- The `expireSecs` that the `case "temp"` arm of `createWxQr` hands to
`CreateTempQrStrScene`.  The block under `if e == ""` declares, with `:=`, a variable of
its own that hides the outer `expireSecs`; it is `_inner` here and goes out of scope
with the block. -/
def tempExpireSecs (e : String) : Int :=
  let expireSecs : Int := 30
  let _inner : Int :=
    if e = "" then
      let expireSecs := (Atoi e).1
      if expireSecs ≤ 0 then 30 else expireSecs
    else expireSecs
  expireSecs

/-- Handler `createWxQr`. -/
def createWxQr (up : Upstream) (wxParamsCache : ParamsCache) (w : ResponseWriter)
    (r : Request) : HandlerResult :=
  let service := r.FormValue "s"
  if service = "" then
    (writeError w StatusBadRequest "s(ervice) parameter expected", [])
  else
  match wxParamsCache.get service with
  | none => (writeError w StatusBadRequest ("unknown service name " ++ service), [])
  | some wxParams =>
  let qrType := r.FormValue "t"
  if qrType = "" then
    (writeError w StatusBadRequest "t(type) parameter expected", [])
  else
  if ¬ (qrType = "temp" ∨ qrType = "forever") then
    (writeError w StatusBadRequest "t(ype) value must be \"temp\" or \"forever\"", [])
  else
  let sceneid := if r.FormValue "sceneid" = "" then "0" else r.FormValue "sceneid"
  match up.AccessTokenGet wxParams with
  | .error err => (writeError w StatusInternalServerError err, [Call.AccessTokenGet wxParams])
  | .ok accessToken =>
  let qr : Except String (String × String) × List Call :=
    if qrType = "temp" then
      let expireSecs := tempExpireSecs (r.FormValue "e")
      (up.CreateTempQrStrScene accessToken sceneid expireSecs,
        [Call.CreateTempQrStrScene accessToken sceneid expireSecs])
    else
      (up.CreateQrStrScene accessToken sceneid, [Call.CreateQrStrScene accessToken sceneid])
  match qr.1 with
  | .error err => (writeError w StatusInternalServerError err, Call.AccessTokenGet wxParams :: qr.2)
  | .ok (ticketURL2ShowQrCode, urlIncluedInQrcode) =>
    (writeJson w StatusOK
      [("code", JsonValue.int StatusOK),
       ("msg", JsonValue.string "OK"),
       ("result", JsonValue.stringMap
          [("ticketURL2ShowQrCode", ticketURL2ShowQrCode),
           ("urlIncluedInQrcode", urlIncluedInQrcode)])],
     Call.AccessTokenGet wxParams :: qr.2)

/-! ## `getWxUserInfo` -/

/-- Handler `getWxUserInfo`. -/
def getWxUserInfo (up : Upstream) (wxParamsCache : ParamsCache) (w : ResponseWriter)
    (r : Request) : HandlerResult :=
  let service := r.FormValue "s"
  if service = "" then
    (writeError w StatusBadRequest "s(ervice) parameter expected", [])
  else
  match wxParamsCache.get service with
  | none => (writeError w StatusBadRequest ("unknown service name " ++ service), [])
  | some wxParams =>
  let openId := r.FormValue "o"
  if openId = "" then
    (writeError w StatusBadRequest "o(penId) parameter expected", [])
  else
  match up.GetUserInfo wxParams openId with
  | .error err =>
    (writeError w StatusInternalServerError err, [Call.GetUserInfo wxParams openId])
  | .ok userInfo =>
    (writeJson w StatusOK
      [("code", JsonValue.int StatusOK),
       ("msg", JsonValue.string "OK"),
       ("userInfo", JsonValue.userInfo userInfo)],
     [Call.GetUserInfo wxParams openId])

/-! ## `snsAPI` -/

/-- The `switch scope` of `snsAPI`: the scope the handler goes on with, `none` in the
`default` arm. -/
def snsScope (scope : String) : Option String :=
  if scope = "userinfo" ∨ scope = "base" then some scope
  else if scope = "" ∨ scope = "snsapi_base" then some "base"
  else if scope = "snsapi_userinfo" then some "userinfo"
  else none

/-- A `map[string]interface{}` holding user information as a JSON value: a nil map is
encoded as `null`. -/
def userInfoValue : Option UserInfoT → JsonValue
  | none => JsonValue.null
  | some u => JsonValue.userInfo u

/-- Handler `snsAPI`. -/
def snsAPI (up : Upstream) (wxParamsCache : ParamsCache) (w : ResponseWriter)
    (r : Request) : HandlerResult :=
  let service := r.FormValue "s"
  if service = "" then
    (writeError w StatusBadRequest "s(ervice) parameter expected", [])
  else
  match wxParamsCache.get service with
  | none => (writeError w StatusBadRequest ("unknown service name " ++ service), [])
  | some wxParams =>
  match snsScope (r.FormValue "scope") with
  | none =>
    (writeError w StatusBadRequest
      "scope must be \"useinfo\", \"base\", \"sns_userinfo\" or \"sns_base\"", [])
  | some scope =>
  let code := r.FormValue "code"
  if code = "" then
    (writeError w StatusBadRequest "code parameter expected", [])
  else
  match up.GetOpenId wxParams code with
  | .error err => (writeError w StatusInternalServerError err, [Call.GetOpenId wxParams code])
  | .ok openId =>
  let fetched : (Option UserInfoT × Option String) × Call :=
    if scope = "base" then
      (up.GetInfoByAccessToken wxParams code, Call.GetInfoByAccessToken wxParams code)
    else
      (match up.GetInfo wxParams code with
        | .ok userInfo => (userInfo, none)
        | .error err => (none, some err),
       Call.GetInfo wxParams code)
  let userInfo := fetched.1.1
  let err := fetched.1.2
  (writeJson w StatusOK
    [("code", JsonValue.int StatusOK),
     ("msg", JsonValue.string "OK"),
     ("openId", JsonValue.string openId),
     ("userInfo", userInfoValue userInfo),
     ("error", JsonValue.string (match err with | none => "" | some e => e))],
   [Call.GetOpenId wxParams code, fetched.2])

/-! ## `createShorturl` -/

/-- Handler `createShorturl`. -/
def createShorturl (up : Upstream) (wxParamsCache : ParamsCache) (w : ResponseWriter)
    (r : Request) : HandlerResult :=
  let service := r.FormValue "s"
  if service = "" then
    (writeError w StatusBadRequest "s(ervice) parameter expected", [])
  else
  match wxParamsCache.get service with
  | none => (writeError w StatusBadRequest ("unknown service name " ++ service), [])
  | some wxParams =>
  let longUrl := r.FormValue "u"
  if longUrl = "" then
    (writeError w StatusBadRequest "u(rl) parameter expected", [])
  else
  match up.AccessTokenGet wxParams with
  | .error err => (writeError w StatusInternalServerError err, [Call.AccessTokenGet wxParams])
  | .ok accessToken =>
  match up.MakeShorturl accessToken longUrl with
  | .error err =>
    (writeError w StatusInternalServerError err,
     [Call.AccessTokenGet wxParams, Call.MakeShorturl accessToken longUrl])
  | .ok shortUrl =>
    (writeJson w StatusOK
      [("code", JsonValue.int StatusOK),
       ("msg", JsonValue.string "OK"),
       ("short-url", JsonValue.string shortUrl)],
     [Call.AccessTokenGet wxParams, Call.MakeShorturl accessToken longUrl])

/-! ## Configuration (`gwconf.ServiceConf`), as far as `router.go` reads it -/

/-- The `WxParams` block of a service. -/
structure WxParamsConfT where
  Token : String
  AppId : String
  AppSecret : String
  AesKey : String
deriving DecidableEq, Repr

/-- The `Endpoints` block of a service. -/
structure EndpointsT where
  ServicePath : String
  RedirectPath : String
deriving DecidableEq, Repr

/-- One entry of `serviceConf.Services`. -/
structure ServiceT where
  Name : String
  WorkerNum : Int
  Timeout : Int
  MsgProxyPass : String
  RedirectURL : String
  RedirectUserInfoFlag : String
  WxParams : WxParamsConfT
  Endpoints : EndpointsT
deriving DecidableEq, Repr

/-- The block `serviceConf.CommonEndpoints`. -/
structure CommonEndpointsT where
  HealthCheck : String
  WxQr : String
  WxUser : String
  SnsAPI : String
  ShortUrl : String
deriving DecidableEq, Repr

/-- The configuration `gwconf.ServiceConf`. -/
structure ServiceConfT where
  ListenHost : String
  ListenPort : Int
  TokenCacheDir : String
  DontAppendUserInfo : Bool
  Services : List ServiceT
  CommonEndpoints : CommonEndpointsT
deriving DecidableEq, Repr

/-! ## What `StartWxGateway` builds -/

/-- The message handler registered with a `wxService`. -/
inductive MsgHandlerT where
  | proxy (msgProxyPass : String) (wxParams : WxParamsT) (dontAppendUserInfo : Bool)
  | default
deriving DecidableEq, Repr

/-- The `wxService` made by `wxapi.InitWxAPIWithParams`, with what is registered on it. -/
structure WxServiceT where
  wxParams : WxParamsT
  workerNum : Int
  msgHandler : Option MsgHandlerT
  redirectUrl : Option (String × String)
deriving DecidableEq, Repr

/-- The function values bound to routes; a method of a `wxService` carries the position
of the service in the configuration. -/
inductive HandlerT where
  | Echo (service : Nat)
  | Request (service : Nat)
  | Redirect (service : Nat)
  | healthCheck
  | createWxQr
  | getWxUserInfo
  | snsAPI
  | createShorturl
deriving DecidableEq, Repr

/-- One `router.Get` / `router.Post`. -/
structure Route where
  method : String
  path : String
  handler : HandlerT
deriving DecidableEq, Repr

/-- One `api.Use` / `api.UseHandler`. -/
inductive MiddlewareT where
  | recovery
  | logger
  | signatureChecker (token : String) (timeout : Int) (uris : List String)
  | router
deriving DecidableEq, Repr

/-- Everything `StartWxGateway` writes to: the global `wxParamsCache`, the negroni stack
`api`, the `router`, the services made so far and `wxconf.TokenStorePath` (when set). -/
structure Gateway where
  wxParamsCache : ParamsCache
  api : List MiddlewareT
  router : List Route
  wxServices : List WxServiceT
  TokenStorePath : Option String
deriving DecidableEq, Repr

/-- The state after `negroni.New()`, the two `api.Use` and `alien.New()`, given the
`wxParamsCache` found at entry. -/
def Gateway.init (cache : ParamsCache) : Gateway :=
  { wxParamsCache := cache, api := [MiddlewareT.recovery, MiddlewareT.logger], router := [],
    wxServices := [], TokenStorePath := none }

/-- The body of the loop `for _, service := range serviceConf.Services`: the state it
leaves and the error it returns with, if it does. -/
def registerService (up : Upstream) (serviceConf : ServiceConfT) (gw : Gateway)
    (service : ServiceT) : Gateway × Option String :=
  let paramConf := service.WxParams
  match up.NewWxParams paramConf.Token paramConf.AppId paramConf.AppSecret paramConf.AesKey with
  | .error err => (gw, some ("failed to init servie " ++ service.Name ++ ": " ++ err))
  | .ok wxParams =>
  let gw := { gw with wxParamsCache := gw.wxParamsCache.set service.Name wxParams }
  let wxService : WxServiceT :=
    { wxParams := wxParams, workerNum := service.WorkerNum, msgHandler := none,
      redirectUrl := none }
  let self := gw.wxServices.length
  let endpoints := service.Endpoints
  let gw := { gw with api := gw.api ++
    [MiddlewareT.signatureChecker paramConf.Token service.Timeout [endpoints.ServicePath]] }
  let gw := { gw with router := gw.router ++
    [Route.mk "GET" endpoints.ServicePath (HandlerT.Echo self),
     Route.mk "POST" endpoints.ServicePath (HandlerT.Request self)] }
  let gw :=
    if endpoints.RedirectPath ≠ "" then
      { gw with router := gw.router ++
        [Route.mk "GET" endpoints.RedirectPath (HandlerT.Redirect self)] }
    else gw
  let msgHandler : MsgHandlerT :=
    if service.MsgProxyPass ≠ "" then
      MsgHandlerT.proxy service.MsgProxyPass wxParams serviceConf.DontAppendUserInfo
    else
      MsgHandlerT.default
  let wxService : WxServiceT := { wxService with msgHandler := some msgHandler }
  if service.RedirectURL ≠ "" then
    if endpoints.RedirectPath = "" then
      ({ gw with wxServices := gw.wxServices ++ [wxService] },
       some ("listen-endpoints/redirect-path in servie " ++ service.Name ++
         " must be specfied if you want to use redirect-url"))
    else
      ({ gw with wxServices := gw.wxServices ++
          [{ wxService with
              redirectUrl := some (service.RedirectURL, service.RedirectUserInfoFlag) }] },
       none)
  else
    ({ gw with wxServices := gw.wxServices ++ [wxService] }, none)

/-- The loop over `serviceConf.Services`: it stops at the first error. -/
def registerServices (up : Upstream) (serviceConf : ServiceConfT) :
    Gateway → List ServiceT → Gateway × Option String
  | gw, [] => (gw, none)
  | gw, service :: rest =>
    match registerService up serviceConf gw service with
    | (gw1, some err) => (gw1, some err)
    | (gw1, none) => registerServices up serviceConf gw1 rest

/-- The handler bound to the health-check path:
`w.Header().Set("Content-Type", "text/plain"); fmt.Fprintf(w, "OK\n")`. -/
def healthCheck (w : ResponseWriter) (_r : Request) : ResponseWriter :=
  let w := w.HeaderSet "Content-Type" "text/plain"
  w.Write (Body.text "OK\n")

/-- The part of `StartWxGateway` after the loop, up to `api.UseHandler(router)` and the
setting of `wxconf.TokenStorePath`. -/
def registerCommon (serviceConf : ServiceConfT) (gw : Gateway) : Gateway :=
  let commonEndpoints := serviceConf.CommonEndpoints
  let gw :=
    if commonEndpoints.HealthCheck ≠ "" then
      { gw with router := gw.router ++
        [Route.mk "GET" commonEndpoints.HealthCheck HandlerT.healthCheck] }
    else gw
  let gw :=
    if commonEndpoints.WxQr ≠ "" then
      { gw with router := gw.router ++
        [Route.mk "GET" commonEndpoints.WxQr HandlerT.createWxQr] }
    else gw
  let gw :=
    if commonEndpoints.WxUser ≠ "" then
      { gw with router := gw.router ++
        [Route.mk "GET" commonEndpoints.WxUser HandlerT.getWxUserInfo] }
    else gw
  let gw :=
    if commonEndpoints.SnsAPI ≠ "" then
      { gw with router := gw.router ++
        [Route.mk "GET" commonEndpoints.SnsAPI HandlerT.snsAPI] }
    else gw
  let gw :=
    if commonEndpoints.ShortUrl ≠ "" then
      { gw with router := gw.router ++
        [Route.mk "POST" commonEndpoints.ShortUrl HandlerT.createShorturl] }
    else gw
  let gw := { gw with api := gw.api ++ [MiddlewareT.router] }
  if serviceConf.TokenCacheDir ≠ "" then
    { gw with TokenStorePath := some serviceConf.TokenCacheDir }
  else gw

/-- How `StartWxGateway` ends: with a non-nil error before anything is served, or in
`http.ListenAndServe(listenParam, api)`, after which it returns nil. -/
inductive StartResult where
  | failed (err : String) (gw : Gateway)
  | served (listenParam : String) (gw : Gateway)
deriving DecidableEq, Repr

/-- Routine `StartWxGateway`, started with the given contents of `wxParamsCache`. -/
def StartWxGateway (up : Upstream) (serviceConf : ServiceConfT) (cache : ParamsCache) :
    StartResult :=
  match registerServices up serviceConf (Gateway.init cache) serviceConf.Services with
  | (gw, some err) => StartResult.failed err gw
  | (gw, none) =>
    let gw := registerCommon serviceConf gw
    let listenParam := serviceConf.ListenHost ++ ":" ++ toString serviceConf.ListenPort
    StartResult.served listenParam gw

/-- The error response of the gateway: HTTP status `code`, content type JSON, and the body
`{code: code, msg: msg}`. -/
def errorResponse (code : Nat) (msg : String) : ResponseWriter :=
  { header := [("Content-Type", "application/json")],
    status := some code,
    body := [Body.json [("code", JsonValue.int code), ("msg", JsonValue.string msg)]] }

/-- An upstream platform for concrete runs. -/
def sampleUpstream : Upstream :=
  { NewWxParams := fun token appId appSecret aesKey =>
      if token = "" then .error "token expected" else .ok ⟨token, appId, appSecret, aesKey⟩
    AccessTokenGet := fun p =>
      if p.AppSecret = "" then .error "invalid appsecret" else .ok ("token-of-" ++ p.AppId)
    CreateTempQrStrScene := fun _ sceneid _ =>
      if sceneid = "full" then .error "quota exceeded" else .ok ("ticket-" ++ sceneid, "url-" ++ sceneid)
    CreateQrStrScene := fun _ sceneid =>
      if sceneid = "full" then .error "quota exceeded" else .ok ("ticket-" ++ sceneid, "url-" ++ sceneid)
    GetUserInfo := fun _ openId =>
      if openId = "nobody" then .error "invalid openid" else .ok ⟨[("openid", openId)]⟩
    GetOpenId := fun _ code =>
      if code = "stale" then .error "invalid code" else .ok ("openid-" ++ code)
    GetInfoByAccessToken := fun _ code =>
      if code = "c1" then (none, some "user info refused") else (some ⟨[("openid", code)]⟩, none)
    GetInfo := fun _ code =>
      if code = "c1" then .error "user info refused" else .ok (some ⟨[("openid", code)]⟩)
    MakeShorturl := fun _ longUrl =>
      if longUrl = "x" then .error "invalid url" else .ok ("short-" ++ longUrl)
    SignatureValid := fun token _ r => r.FormValue "signature" = "signed-with-" ++ token }

/-- The parameters of the service `svc` of the concrete runs. -/
def sampleParams : WxParamsT :=
  { Token := "tk", AppId := "app", AppSecret := "secret", AesKey := "" }

/-- A registry holding the one service `svc`. -/
def sampleCache : ParamsCache := [("svc", sampleParams)]

/-- A response with a JSON body: HTTP status `code`, content type JSON, body `data`. -/
def jsonResponse (code : Nat) (data : JsonObject) : ResponseWriter :=
  { header := [("Content-Type", "application/json")], status := some code,
    body := [Body.json data] }

/-- The error `StartWxGateway` returns, `none` when it returns nil. -/
def StartResult.error? : StartResult → Option String
  | .failed err _ => some err
  | .served _ _ => none

/-- The state `StartWxGateway` leaves behind. -/
def StartResult.gateway : StartResult → Gateway
  | .failed _ gw => gw
  | .served _ gw => gw

/-- Whether `http.ListenAndServe` was reached. -/
def StartResult.listened : StartResult → Bool
  | .failed _ _ => false
  | .served _ _ => true

/-- A service of the concrete configurations. -/
def sampleService (name appId redirectURL redirectPath : String) : ServiceT :=
  { Name := name, WorkerNum := 3, Timeout := 5, MsgProxyPass := "",
    RedirectURL := redirectURL, RedirectUserInfoFlag := "",
    WxParams := { Token := "tk", AppId := appId, AppSecret := "secret", AesKey := "" },
    Endpoints := { ServicePath := "/wx/" ++ appId, RedirectPath := redirectPath } }

/-- A configuration with the given services and a health-check path. -/
def sampleConf (services : List ServiceT) : ServiceConfT :=
  { ListenHost := "0.0.0.0", ListenPort := 8080, TokenCacheDir := "",
    DontAppendUserInfo := false, Services := services,
    CommonEndpoints :=
      { HealthCheck := "/health", WxQr := "/qr", WxUser := "/user", SnsAPI := "/sns",
        ShortUrl := "/short" } }

/-- A service that is valid on its own: `NewWxParams` accepts its credentials, and it has
a redirect path if it has a redirect URL. -/
def ServiceT.valid (up : Upstream) (s : ServiceT) : Prop :=
  (∃ p, up.NewWxParams s.WxParams.Token s.WxParams.AppId s.WxParams.AppSecret
      s.WxParams.AesKey = .ok p) ∧
  (s.RedirectURL ≠ "" → s.Endpoints.RedirectPath ≠ "")

theorem writeJson_fresh (code : Nat) (data : JsonObject) :
    writeJson ResponseWriter.fresh code data =
      { header := [("Content-Type", "application/json")], status := some code,
        body := [Body.json data] } := rfl

theorem writeError_fresh (code : Nat) (msg : String) :
    writeError ResponseWriter.fresh code msg = errorResponse code msg := rfl

theorem tempExpireSecs_eq (e : String) : tempExpireSecs e = 30 := rfl

/-- C1: in `createWxQr`, for a registered service, `t=temp` and a token obtained, an `e`
that is empty, unparsable or not positive makes the handler call `CreateTempQrStrScene`
with 30 expire seconds (after the one token acquisition, and nothing else). -/
theorem createWxQr_temp_expire_default (up : Upstream) (cache : ParamsCache) (r : Request)
    (wxParams : WxParamsT) (accessToken : String)
    (hs : r.FormValue "s" ≠ "")
    (hreg : cache.get (r.FormValue "s") = some wxParams)
    (ht : r.FormValue "t" = "temp")
    (htok : up.AccessTokenGet wxParams = .ok accessToken)
    (_he : r.FormValue "e" = "" ∨ (Atoi (r.FormValue "e")).2 = false ∨
      (Atoi (r.FormValue "e")).1 ≤ 0) :
    (createWxQr up cache ResponseWriter.fresh r).2 =
      [Call.AccessTokenGet wxParams,
       Call.CreateTempQrStrScene accessToken
         (if r.FormValue "sceneid" = "" then "0" else r.FormValue "sceneid") 30] := by
  unfold createWxQr
  simp only [hs, hreg, ht, htok, tempExpireSecs_eq]
  cases hq : up.CreateTempQrStrScene accessToken
      (if r.FormValue "sceneid" = "" then "0" else r.FormValue "sceneid") 30 <;> simp [hq]

/-- Witness of C1: the request `s=svc&t=temp&e=-5`. -/
theorem createWxQr_temp_expire_default_witness :
    (Atoi "-5").1 ≤ 0 ∧
    (createWxQr sampleUpstream sampleCache ResponseWriter.fresh
        ⟨[("s", "svc"), ("t", "temp"), ("e", "-5")]⟩).2 =
      [Call.AccessTokenGet sampleParams,
       Call.CreateTempQrStrScene "token-of-app" "0" 30] :=
  ⟨by decide,
   createWxQr_temp_expire_default sampleUpstream sampleCache
     ⟨[("s", "svc"), ("t", "temp"), ("e", "-5")]⟩ sampleParams "token-of-app"
     (by decide) (by decide) (by decide) rfl (Or.inr (Or.inr (by decide)))⟩

/-- C2 (the code at the failing input): on `s=svc&t=temp&e=60`, with `svc` registered and
the token obtained, `e` is the decimal form of 60 and yet `createWxQr` calls
`CreateTempQrStrScene` with 30 expire seconds, not with 60. -/
theorem createWxQr_temp_expire_ignores_e :
    Atoi "60" = (60, true) ∧
    (createWxQr sampleUpstream sampleCache ResponseWriter.fresh
        ⟨[("s", "svc"), ("t", "temp"), ("e", "60")]⟩).2 =
      [Call.AccessTokenGet sampleParams,
       Call.CreateTempQrStrScene "token-of-app" "0" 30] ∧
    Call.CreateTempQrStrScene "token-of-app" "0" 60 ∉
      (createWxQr sampleUpstream sampleCache ResponseWriter.fresh
        ⟨[("s", "svc"), ("t", "temp"), ("e", "60")]⟩).2 := by
  decide

/-- C3: each of the four auxiliary handlers answers a request whose non-empty `s` is not a
key of the registry with status 400 and the body `{code: 400, msg}`, where `msg` is
`unknown service name ` followed by the name given, and makes no call to a collaborator;
the other parameters of the request play no part. -/
theorem unknown_service_rejected (up : Upstream) (cache : ParamsCache) (r : Request)
    (hs : r.FormValue "s" ≠ "") (hreg : cache.get (r.FormValue "s") = none) :
    (∀ res ∈ [createWxQr up cache ResponseWriter.fresh r,
              getWxUserInfo up cache ResponseWriter.fresh r,
              snsAPI up cache ResponseWriter.fresh r,
              createShorturl up cache ResponseWriter.fresh r],
      res.1.status = some 400 ∧
      res.1.body = [Body.json [("code", JsonValue.int 400),
        ("msg", JsonValue.string ("unknown service name " ++ r.FormValue "s"))]] ∧
      res.2 = []) ∧
    ∃ pre post, "unknown service name " ++ r.FormValue "s" = pre ++ r.FormValue "s" ++ post := by
  refine ⟨?_, "unknown service name ", "", by simp⟩
  intro res hres
  have h1 : createWxQr up cache ResponseWriter.fresh r =
      (errorResponse 400 ("unknown service name " ++ r.FormValue "s"), []) := by
    unfold createWxQr
    simp only [hs, hreg, writeError_fresh, StatusBadRequest, if_false]
  have h2 : getWxUserInfo up cache ResponseWriter.fresh r =
      (errorResponse 400 ("unknown service name " ++ r.FormValue "s"), []) := by
    unfold getWxUserInfo
    simp only [hs, hreg, writeError_fresh, StatusBadRequest, if_false]
  have h3 : snsAPI up cache ResponseWriter.fresh r =
      (errorResponse 400 ("unknown service name " ++ r.FormValue "s"), []) := by
    unfold snsAPI
    simp only [hs, hreg, writeError_fresh, StatusBadRequest, if_false]
  have h4 : createShorturl up cache ResponseWriter.fresh r =
      (errorResponse 400 ("unknown service name " ++ r.FormValue "s"), []) := by
    unfold createShorturl
    simp only [hs, hreg, writeError_fresh, StatusBadRequest, if_false]
  rw [h1, h2, h3, h4] at hres
  simp only [List.mem_cons, List.mem_singleton, List.mem_nil_iff, or_false, or_self] at hres
  subst hres
  exact ⟨rfl, rfl, rfl⟩

/-- Witness of C3: `s=ghost&o=u1&t=temp&code=c&u=x` against the registry of `svc`. -/
theorem unknown_service_rejected_witness :
    (getWxUserInfo sampleUpstream sampleCache ResponseWriter.fresh
        ⟨[("s", "ghost"), ("o", "u1"), ("t", "temp"), ("code", "c"), ("u", "x")]⟩).1.status
      = some 400 ∧
    (getWxUserInfo sampleUpstream sampleCache ResponseWriter.fresh
        ⟨[("s", "ghost"), ("o", "u1"), ("t", "temp"), ("code", "c"), ("u", "x")]⟩).1.body
      = [Body.json [("code", JsonValue.int 400),
          ("msg", JsonValue.string "unknown service name ghost")]] ∧
    (getWxUserInfo sampleUpstream sampleCache ResponseWriter.fresh
        ⟨[("s", "ghost"), ("o", "u1"), ("t", "temp"), ("code", "c"), ("u", "x")]⟩).2 = [] :=
  (unknown_service_rejected sampleUpstream sampleCache
    ⟨[("s", "ghost"), ("o", "u1"), ("t", "temp"), ("code", "c"), ("u", "x")]⟩
    (by decide) (by decide)).1 _ (List.mem_cons_of_mem _ (List.mem_cons_self _ _))

/-! ## Upstream failures -/

theorem createWxQr_token_error (up : Upstream) (cache : ParamsCache) (r : Request)
    (wxParams : WxParamsT) (err : String)
    (hs : r.FormValue "s" ≠ "") (hreg : cache.get (r.FormValue "s") = some wxParams)
    (ht : r.FormValue "t" = "temp" ∨ r.FormValue "t" = "forever")
    (htok : up.AccessTokenGet wxParams = .error err) :
    createWxQr up cache ResponseWriter.fresh r =
      (errorResponse 500 err, [Call.AccessTokenGet wxParams]) := by
  have ht0 : r.FormValue "t" ≠ "" := by
    rcases ht with h | h <;> rw [h] <;> decide
  unfold createWxQr
  simp only [hs, hreg, ht0, ht, htok, writeError_fresh, StatusInternalServerError,
    if_false, not_true_eq_false]

theorem createWxQr_temp_error (up : Upstream) (cache : ParamsCache) (r : Request)
    (wxParams : WxParamsT) (accessToken err : String)
    (hs : r.FormValue "s" ≠ "") (hreg : cache.get (r.FormValue "s") = some wxParams)
    (ht : r.FormValue "t" = "temp")
    (htok : up.AccessTokenGet wxParams = .ok accessToken)
    (hqr : up.CreateTempQrStrScene accessToken
      (if r.FormValue "sceneid" = "" then "0" else r.FormValue "sceneid") 30 = .error err) :
    createWxQr up cache ResponseWriter.fresh r =
      (errorResponse 500 err,
       [Call.AccessTokenGet wxParams,
        Call.CreateTempQrStrScene accessToken
          (if r.FormValue "sceneid" = "" then "0" else r.FormValue "sceneid") 30]) := by
  unfold createWxQr
  simp only [hs, hreg, ht, htok, tempExpireSecs_eq]
  simp [hqr, writeError_fresh, StatusInternalServerError]

theorem createWxQr_forever_error (up : Upstream) (cache : ParamsCache) (r : Request)
    (wxParams : WxParamsT) (accessToken err : String)
    (hs : r.FormValue "s" ≠ "") (hreg : cache.get (r.FormValue "s") = some wxParams)
    (ht : r.FormValue "t" = "forever")
    (htok : up.AccessTokenGet wxParams = .ok accessToken)
    (hqr : up.CreateQrStrScene accessToken
      (if r.FormValue "sceneid" = "" then "0" else r.FormValue "sceneid") = .error err) :
    createWxQr up cache ResponseWriter.fresh r =
      (errorResponse 500 err,
       [Call.AccessTokenGet wxParams,
        Call.CreateQrStrScene accessToken
          (if r.FormValue "sceneid" = "" then "0" else r.FormValue "sceneid")]) := by
  unfold createWxQr
  simp only [hs, hreg, ht, htok]
  simp [hqr, writeError_fresh, StatusInternalServerError]

theorem createWxQr_ok_calls (up : Upstream) (cache : ParamsCache) (r : Request)
    (h200 : (createWxQr up cache ResponseWriter.fresh r).1.status = some 200) :
    ∀ c ∈ (createWxQr up cache ResponseWriter.fresh r).2, c.succeeds up = true := by
  unfold createWxQr at h200 ⊢
  by_cases hs : r.FormValue "s" = ""
  · simp [hs]
  cases hreg : cache.get (r.FormValue "s") with
  | none => simp [hs, hreg]
  | some wxParams =>
    by_cases ht0 : r.FormValue "t" = ""
    · simp [hs, hreg, ht0]
    by_cases ht : r.FormValue "t" = "temp" ∨ r.FormValue "t" = "forever"
    · cases htok : up.AccessTokenGet wxParams with
      | error err =>
        simp [hs, hreg, ht0, ht, htok, writeError_fresh, errorResponse,
          StatusInternalServerError] at h200
      | ok accessToken =>
        by_cases htemp : r.FormValue "t" = "temp"
        · cases hqr : up.CreateTempQrStrScene accessToken
            (if r.FormValue "sceneid" = "" then "0" else r.FormValue "sceneid") 30 with
          | error err =>
            simp [hs, hreg, htemp, htok, tempExpireSecs_eq, hqr, writeError_fresh,
              errorResponse, StatusInternalServerError] at h200
          | ok v =>
            simp [hs, hreg, htemp, htok, tempExpireSecs_eq, hqr, Call.succeeds, Except.toBool]
        · have hf : r.FormValue "t" = "forever" := by tauto
          cases hqr : up.CreateQrStrScene accessToken
            (if r.FormValue "sceneid" = "" then "0" else r.FormValue "sceneid") with
          | error err =>
            simp [hs, hreg, hf, htok, hqr, writeError_fresh,
              errorResponse, StatusInternalServerError] at h200
          | ok v =>
            simp [hs, hreg, hf, htok, hqr, Call.succeeds, Except.toBool]
    · simp [hs, hreg, ht0, ht]

theorem getWxUserInfo_error (up : Upstream) (cache : ParamsCache) (r : Request)
    (wxParams : WxParamsT) (err : String)
    (hs : r.FormValue "s" ≠ "") (hreg : cache.get (r.FormValue "s") = some wxParams)
    (ho : r.FormValue "o" ≠ "")
    (hui : up.GetUserInfo wxParams (r.FormValue "o") = .error err) :
    getWxUserInfo up cache ResponseWriter.fresh r =
      (errorResponse 500 err, [Call.GetUserInfo wxParams (r.FormValue "o")]) := by
  unfold getWxUserInfo
  simp only [hs, hreg, ho, hui, writeError_fresh, StatusInternalServerError, if_false]

theorem getWxUserInfo_ok_calls (up : Upstream) (cache : ParamsCache) (r : Request)
    (h200 : (getWxUserInfo up cache ResponseWriter.fresh r).1.status = some 200) :
    ∀ c ∈ (getWxUserInfo up cache ResponseWriter.fresh r).2, c.succeeds up = true := by
  unfold getWxUserInfo at h200 ⊢
  by_cases hs : r.FormValue "s" = ""
  · simp [hs]
  cases hreg : cache.get (r.FormValue "s") with
  | none => simp [hs, hreg]
  | some wxParams =>
    by_cases ho : r.FormValue "o" = ""
    · simp [hs, hreg, ho]
    cases hui : up.GetUserInfo wxParams (r.FormValue "o") with
    | error err =>
      simp [hs, hreg, ho, hui, writeError_fresh, errorResponse,
        StatusInternalServerError] at h200
    | ok v => simp [hs, hreg, ho, hui, Call.succeeds, Except.toBool]

theorem createShorturl_token_error (up : Upstream) (cache : ParamsCache) (r : Request)
    (wxParams : WxParamsT) (err : String)
    (hs : r.FormValue "s" ≠ "") (hreg : cache.get (r.FormValue "s") = some wxParams)
    (hu : r.FormValue "u" ≠ "")
    (htok : up.AccessTokenGet wxParams = .error err) :
    createShorturl up cache ResponseWriter.fresh r =
      (errorResponse 500 err, [Call.AccessTokenGet wxParams]) := by
  unfold createShorturl
  simp only [hs, hreg, hu, htok, writeError_fresh, StatusInternalServerError, if_false]

theorem createShorturl_error (up : Upstream) (cache : ParamsCache) (r : Request)
    (wxParams : WxParamsT) (accessToken err : String)
    (hs : r.FormValue "s" ≠ "") (hreg : cache.get (r.FormValue "s") = some wxParams)
    (hu : r.FormValue "u" ≠ "")
    (htok : up.AccessTokenGet wxParams = .ok accessToken)
    (hsh : up.MakeShorturl accessToken (r.FormValue "u") = .error err) :
    createShorturl up cache ResponseWriter.fresh r =
      (errorResponse 500 err,
       [Call.AccessTokenGet wxParams, Call.MakeShorturl accessToken (r.FormValue "u")]) := by
  unfold createShorturl
  simp only [hs, hreg, hu, htok, hsh, writeError_fresh, StatusInternalServerError, if_false]

theorem createShorturl_ok_calls (up : Upstream) (cache : ParamsCache) (r : Request)
    (h200 : (createShorturl up cache ResponseWriter.fresh r).1.status = some 200) :
    ∀ c ∈ (createShorturl up cache ResponseWriter.fresh r).2, c.succeeds up = true := by
  unfold createShorturl at h200 ⊢
  by_cases hs : r.FormValue "s" = ""
  · simp [hs]
  cases hreg : cache.get (r.FormValue "s") with
  | none => simp [hs, hreg]
  | some wxParams =>
    by_cases hu : r.FormValue "u" = ""
    · simp [hs, hreg, hu]
    cases htok : up.AccessTokenGet wxParams with
    | error err =>
      simp [hs, hreg, hu, htok, writeError_fresh, errorResponse,
        StatusInternalServerError] at h200
    | ok accessToken =>
      cases hsh : up.MakeShorturl accessToken (r.FormValue "u") with
      | error err =>
        simp [hs, hreg, hu, htok, hsh, writeError_fresh, errorResponse,
          StatusInternalServerError] at h200
      | ok v => simp [hs, hreg, hu, htok, hsh, Call.succeeds, Except.toBool]

theorem snsAPI_openId_error (up : Upstream) (cache : ParamsCache) (r : Request)
    (wxParams : WxParamsT) (scope err : String)
    (hs : r.FormValue "s" ≠ "") (hreg : cache.get (r.FormValue "s") = some wxParams)
    (hscope : snsScope (r.FormValue "scope") = some scope)
    (hc : r.FormValue "code" ≠ "")
    (hid : up.GetOpenId wxParams (r.FormValue "code") = .error err) :
    snsAPI up cache ResponseWriter.fresh r =
      (errorResponse 500 err, [Call.GetOpenId wxParams (r.FormValue "code")]) := by
  unfold snsAPI
  simp only [hs, hreg, hscope, hc, hid, writeError_fresh, StatusInternalServerError, if_false]

theorem snsAPI_base (up : Upstream) (cache : ParamsCache) (r : Request)
    (wxParams : WxParamsT) (openId : String)
    (hs : r.FormValue "s" ≠ "") (hreg : cache.get (r.FormValue "s") = some wxParams)
    (hscope : snsScope (r.FormValue "scope") = some "base")
    (hc : r.FormValue "code" ≠ "")
    (hid : up.GetOpenId wxParams (r.FormValue "code") = .ok openId) :
    snsAPI up cache ResponseWriter.fresh r =
      (jsonResponse 200
        [("code", JsonValue.int 200), ("msg", JsonValue.string "OK"),
         ("openId", JsonValue.string openId),
         ("userInfo",
            userInfoValue (up.GetInfoByAccessToken wxParams (r.FormValue "code")).1),
         ("error", JsonValue.string
            ((up.GetInfoByAccessToken wxParams (r.FormValue "code")).2.getD ""))],
       [Call.GetOpenId wxParams (r.FormValue "code"),
        Call.GetInfoByAccessToken wxParams (r.FormValue "code")]) := by
  unfold snsAPI
  simp only [hs, hreg, hscope, hc, hid, writeJson_fresh, StatusOK, if_false, if_true]
  cases (up.GetInfoByAccessToken wxParams (r.FormValue "code")).2 <;> rfl

theorem snsAPI_userinfo (up : Upstream) (cache : ParamsCache) (r : Request)
    (wxParams : WxParamsT) (openId : String)
    (hs : r.FormValue "s" ≠ "") (hreg : cache.get (r.FormValue "s") = some wxParams)
    (hscope : snsScope (r.FormValue "scope") = some "userinfo")
    (hc : r.FormValue "code" ≠ "")
    (hid : up.GetOpenId wxParams (r.FormValue "code") = .ok openId) :
    snsAPI up cache ResponseWriter.fresh r =
      (jsonResponse 200
        [("code", JsonValue.int 200), ("msg", JsonValue.string "OK"),
         ("openId", JsonValue.string openId),
         ("userInfo",
            match up.GetInfo wxParams (r.FormValue "code") with
            | .ok userInfo => userInfoValue userInfo
            | .error _ => JsonValue.null),
         ("error", JsonValue.string
            (match up.GetInfo wxParams (r.FormValue "code") with
             | .ok _ => ""
             | .error e => e))],
       [Call.GetOpenId wxParams (r.FormValue "code"),
        Call.GetInfo wxParams (r.FormValue "code")]) := by
  have hne : ¬ ("userinfo" = "base") := by decide
  unfold snsAPI
  simp only [hs, hreg, hscope, hc, hid, writeJson_fresh, StatusOK, if_false, hne]
  cases up.GetInfo wxParams (r.FormValue "code") <;> rfl

theorem snsScope_values (scope sc : String) (h : snsScope scope = some sc) :
    sc = "base" ∨ sc = "userinfo" := by
  unfold snsScope at h
  split_ifs at h with h1 h2 h3
  · cases h
    tauto
  · cases h
    tauto
  · cases h
    tauto

theorem snsAPI_ok_openId (up : Upstream) (cache : ParamsCache) (r : Request)
    (wxParams : WxParamsT)
    (hs : r.FormValue "s" ≠ "") (hreg : cache.get (r.FormValue "s") = some wxParams)
    (h200 : (snsAPI up cache ResponseWriter.fresh r).1.status = some 200) :
    ∃ openId, up.GetOpenId wxParams (r.FormValue "code") = .ok openId := by
  unfold snsAPI at h200
  cases hscope : snsScope (r.FormValue "scope") with
  | none =>
    simp [hs, hreg, hscope, writeError_fresh, errorResponse, StatusBadRequest] at h200
  | some scope =>
    by_cases hc : r.FormValue "code" = ""
    · simp [hs, hreg, hscope, hc, writeError_fresh, errorResponse, StatusBadRequest] at h200
    cases hid : up.GetOpenId wxParams (r.FormValue "code") with
    | error err =>
      simp [hs, hreg, hscope, hc, hid, writeError_fresh, errorResponse,
        StatusInternalServerError] at h200
    | ok openId => exact ⟨openId, rfl⟩

/-- C4 (counterexample): `snsAPI` on `s=svc&code=c1&scope=userinfo`.  The open-id exchange
succeeds, the user-info fetch `GetInfo` that follows is made and returns an error, and
the response has status 200, not 500. -/
theorem snsAPI_userinfo_error_status_200 :
    sampleUpstream.GetInfo sampleParams "c1" = .error "user info refused" ∧
    Call.GetInfo sampleParams "c1" ∈
      (snsAPI sampleUpstream sampleCache ResponseWriter.fresh
        ⟨[("s", "svc"), ("code", "c1"), ("scope", "userinfo")]⟩).2 ∧
    (snsAPI sampleUpstream sampleCache ResponseWriter.fresh
        ⟨[("s", "svc"), ("code", "c1"), ("scope", "userinfo")]⟩).1.status = some 200 ∧
    (snsAPI sampleUpstream sampleCache ResponseWriter.fresh
        ⟨[("s", "svc"), ("code", "c1"), ("scope", "userinfo")]⟩).1.status ≠ some 500 := by
  refine ⟨rfl, by decide, by decide, by decide⟩

/-- C4 (amended): for a request naming a registered service and passing validation, an
error of the token acquisition or of the upstream call of `createWxQr`, `getWxUserInfo`
and `createShorturl`, and an error of the open-id exchange of `snsAPI`, give the response
with status 500 and body `{code: 500, msg}`, `msg` being the error text; these three
handlers write status 200 only when every call they made succeeded, and `snsAPI` only
when the open-id exchange succeeded.  After a successful open-id exchange `snsAPI`
answers with status 200 whatever the user-info fetch returns (`GetInfoByAccessToken` for
the scope `base`, `GetInfo` for `userinfo`): the body is
`{code: 200, msg: "OK", openId, userInfo, error}`, where `error` is the error text of the
fetch, and `""` when the fetch succeeded. -/
theorem upstream_error_reported (up : Upstream) (cache : ParamsCache) (r : Request)
    (wxParams : WxParamsT)
    (hs : r.FormValue "s" ≠ "") (hreg : cache.get (r.FormValue "s") = some wxParams) :
    ((r.FormValue "t" = "temp" ∨ r.FormValue "t" = "forever") →
      (∀ err, up.AccessTokenGet wxParams = .error err →
        (createWxQr up cache ResponseWriter.fresh r).1 = errorResponse 500 err) ∧
      (∀ accessToken err, up.AccessTokenGet wxParams = .ok accessToken →
        (r.FormValue "t" = "temp" ∧
          up.CreateTempQrStrScene accessToken
            (if r.FormValue "sceneid" = "" then "0" else r.FormValue "sceneid") 30
            = .error err) ∨
        (r.FormValue "t" = "forever" ∧
          up.CreateQrStrScene accessToken
            (if r.FormValue "sceneid" = "" then "0" else r.FormValue "sceneid")
            = .error err) →
        (createWxQr up cache ResponseWriter.fresh r).1 = errorResponse 500 err)) ∧
    (r.FormValue "o" ≠ "" →
      ∀ err, up.GetUserInfo wxParams (r.FormValue "o") = .error err →
        (getWxUserInfo up cache ResponseWriter.fresh r).1 = errorResponse 500 err) ∧
    (r.FormValue "u" ≠ "" →
      (∀ err, up.AccessTokenGet wxParams = .error err →
        (createShorturl up cache ResponseWriter.fresh r).1 = errorResponse 500 err) ∧
      (∀ accessToken err, up.AccessTokenGet wxParams = .ok accessToken →
        up.MakeShorturl accessToken (r.FormValue "u") = .error err →
        (createShorturl up cache ResponseWriter.fresh r).1 = errorResponse 500 err)) ∧
    (∀ res ∈ [createWxQr up cache ResponseWriter.fresh r,
              getWxUserInfo up cache ResponseWriter.fresh r,
              createShorturl up cache ResponseWriter.fresh r],
      res.1.status = some 200 → ∀ c ∈ res.2, c.succeeds up = true) ∧
    (r.FormValue "code" ≠ "" →
      (∀ scope err, snsScope (r.FormValue "scope") = some scope →
        up.GetOpenId wxParams (r.FormValue "code") = .error err →
        (snsAPI up cache ResponseWriter.fresh r).1 = errorResponse 500 err) ∧
      (∀ scope openId, snsScope (r.FormValue "scope") = some scope →
        up.GetOpenId wxParams (r.FormValue "code") = .ok openId →
        (snsAPI up cache ResponseWriter.fresh r).1.status = some 200) ∧
      (∀ openId userInfo (err : Option String),
        snsScope (r.FormValue "scope") = some "base" →
        up.GetOpenId wxParams (r.FormValue "code") = .ok openId →
        up.GetInfoByAccessToken wxParams (r.FormValue "code") = (userInfo, err) →
        snsAPI up cache ResponseWriter.fresh r =
          (jsonResponse 200
            [("code", JsonValue.int 200), ("msg", JsonValue.string "OK"),
             ("openId", JsonValue.string openId), ("userInfo", userInfoValue userInfo),
             ("error", JsonValue.string (err.getD ""))],
           [Call.GetOpenId wxParams (r.FormValue "code"),
            Call.GetInfoByAccessToken wxParams (r.FormValue "code")])) ∧
      (∀ openId userInfo, snsScope (r.FormValue "scope") = some "userinfo" →
        up.GetOpenId wxParams (r.FormValue "code") = .ok openId →
        up.GetInfo wxParams (r.FormValue "code") = .ok userInfo →
        snsAPI up cache ResponseWriter.fresh r =
          (jsonResponse 200
            [("code", JsonValue.int 200), ("msg", JsonValue.string "OK"),
             ("openId", JsonValue.string openId), ("userInfo", userInfoValue userInfo),
             ("error", JsonValue.string "")],
           [Call.GetOpenId wxParams (r.FormValue "code"),
            Call.GetInfo wxParams (r.FormValue "code")])) ∧
      (∀ openId err, snsScope (r.FormValue "scope") = some "userinfo" →
        up.GetOpenId wxParams (r.FormValue "code") = .ok openId →
        up.GetInfo wxParams (r.FormValue "code") = .error err →
        snsAPI up cache ResponseWriter.fresh r =
          (jsonResponse 200
            [("code", JsonValue.int 200), ("msg", JsonValue.string "OK"),
             ("openId", JsonValue.string openId), ("userInfo", JsonValue.null),
             ("error", JsonValue.string err)],
           [Call.GetOpenId wxParams (r.FormValue "code"),
            Call.GetInfo wxParams (r.FormValue "code")]))) ∧
    ((snsAPI up cache ResponseWriter.fresh r).1.status = some 200 →
      ∃ openId, up.GetOpenId wxParams (r.FormValue "code") = .ok openId) := by
  refine ⟨fun ht => ⟨fun err htok => ?_, fun accessToken err htok hqr => ?_⟩,
    fun ho err hui => ?_,
    fun hu => ⟨fun err htok => ?_, fun accessToken err htok hsh => ?_⟩,
    fun res hres h200 => ?_,
    fun hc => ⟨fun scope err hscope hid => ?_, fun scope openId hscope hid => ?_,
      fun openId userInfo err hscope hid hui => ?_,
      fun openId userInfo hscope hid hui => ?_,
      fun openId err hscope hid hui => ?_⟩,
    fun h200 => snsAPI_ok_openId up cache r wxParams hs hreg h200⟩
  · rw [createWxQr_token_error up cache r wxParams err hs hreg ht htok]
  · rcases hqr with ⟨ht1, hqr⟩ | ⟨ht1, hqr⟩
    · rw [createWxQr_temp_error up cache r wxParams accessToken err hs hreg ht1 htok hqr]
    · rw [createWxQr_forever_error up cache r wxParams accessToken err hs hreg ht1 htok hqr]
  · rw [getWxUserInfo_error up cache r wxParams err hs hreg ho hui]
  · rw [createShorturl_token_error up cache r wxParams err hs hreg hu htok]
  · rw [createShorturl_error up cache r wxParams accessToken err hs hreg hu htok hsh]
  · simp only [List.mem_cons, List.mem_singleton, List.mem_nil_iff, or_false] at hres
    rcases hres with h | h | h
    · subst h
      exact createWxQr_ok_calls up cache r h200
    · subst h
      exact getWxUserInfo_ok_calls up cache r h200
    · subst h
      exact createShorturl_ok_calls up cache r h200
  · rw [snsAPI_openId_error up cache r wxParams scope err hs hreg hscope hc hid]
  · rcases snsScope_values _ _ hscope with h | h
    · subst h
      rw [snsAPI_base up cache r wxParams openId hs hreg hscope hc hid]
      rfl
    · subst h
      rw [snsAPI_userinfo up cache r wxParams openId hs hreg hscope hc hid]
      rfl
  · rw [snsAPI_base up cache r wxParams openId hs hreg hscope hc hid, hui]
  · rw [snsAPI_userinfo up cache r wxParams openId hs hreg hscope hc hid, hui]
  · rw [snsAPI_userinfo up cache r wxParams openId hs hreg hscope hc hid, hui]

/-- Witness of C4 (amended): `createShorturl` on `s=svc&u=x`, where the token is obtained
and the shortening fails with `invalid url`. -/
theorem upstream_error_reported_witness :
    sampleUpstream.MakeShorturl "token-of-app" "x" = .error "invalid url" ∧
    (createShorturl sampleUpstream sampleCache ResponseWriter.fresh
        ⟨[("s", "svc"), ("u", "x")]⟩).1 = errorResponse 500 "invalid url" :=
  ⟨rfl,
   ((upstream_error_reported sampleUpstream sampleCache ⟨[("s", "svc"), ("u", "x")]⟩
      sampleParams (by decide) (by decide)).2.2.1 (by decide)).2
      "token-of-app" "invalid url" rfl rfl⟩

/-! ## Parameter validation -/

/-- C5 (counterexample): `snsAPI` on `s=svc&scope=bogus`, where `svc` is registered and the
required `code` is absent.  The response is the 400 of the scope check, whose message
names `scope` and does not contain `code`. -/
theorem snsAPI_missing_code_names_scope :
    (Request.mk [("s", "svc"), ("scope", "bogus")]).FormValue "code" = "" ∧
    snsAPI sampleUpstream sampleCache ResponseWriter.fresh
        ⟨[("s", "svc"), ("scope", "bogus")]⟩ =
      (errorResponse 400
        "scope must be \"useinfo\", \"base\", \"sns_userinfo\" or \"sns_base\"", []) ∧
    ¬ ("code".data <:+:
        "scope must be \"useinfo\", \"base\", \"sns_userinfo\" or \"sns_base\"".data) := by
  refine ⟨by decide, by decide, by decide⟩

/-- C5 (amended): a handler answers with status 400, body `{code: 400, msg}` and no call
to a collaborator, where `msg` names the first parameter that fails in the order the
handler checks them: `s` when it is empty; then, for a registered service, `t` in
`createWxQr` (empty, or neither `temp` nor `forever`), `o` in `getWxUserInfo`, `u` in
`createShorturl`; and in `snsAPI` with `code` empty, `code` when the scope is one of the
accepted values and `scope` when it is not, the scope being checked first. -/
theorem invalid_parameter_rejected (up : Upstream) (cache : ParamsCache) (r : Request) :
    (r.FormValue "s" = "" →
      ∀ res ∈ [createWxQr up cache ResponseWriter.fresh r,
               getWxUserInfo up cache ResponseWriter.fresh r,
               snsAPI up cache ResponseWriter.fresh r,
               createShorturl up cache ResponseWriter.fresh r],
        res = (errorResponse 400 "s(ervice) parameter expected", [])) ∧
    (r.FormValue "s" ≠ "" → ∀ wxParams, cache.get (r.FormValue "s") = some wxParams →
      (r.FormValue "t" = "" →
        createWxQr up cache ResponseWriter.fresh r =
          (errorResponse 400 "t(type) parameter expected", [])) ∧
      (r.FormValue "t" ≠ "" → r.FormValue "t" ≠ "temp" → r.FormValue "t" ≠ "forever" →
        createWxQr up cache ResponseWriter.fresh r =
          (errorResponse 400 "t(ype) value must be \"temp\" or \"forever\"", [])) ∧
      (r.FormValue "o" = "" →
        getWxUserInfo up cache ResponseWriter.fresh r =
          (errorResponse 400 "o(penId) parameter expected", [])) ∧
      (r.FormValue "u" = "" →
        createShorturl up cache ResponseWriter.fresh r =
          (errorResponse 400 "u(rl) parameter expected", [])) ∧
      (r.FormValue "code" = "" →
        snsAPI up cache ResponseWriter.fresh r =
          (errorResponse 400
            (if (snsScope (r.FormValue "scope")).isSome then "code parameter expected"
             else "scope must be \"useinfo\", \"base\", \"sns_userinfo\" or \"sns_base\""),
           []))) := by
  refine ⟨fun hs res hres => ?_, fun hs wxParams hreg =>
    ⟨fun ht => ?_, fun ht0 ht1 ht2 => ?_, fun ho => ?_, fun hu => ?_, fun hc => ?_⟩⟩
  · have h1 : createWxQr up cache ResponseWriter.fresh r =
        (errorResponse 400 "s(ervice) parameter expected", []) := by
      unfold createWxQr
      simp only [hs, writeError_fresh, StatusBadRequest, if_true]
    have h2 : getWxUserInfo up cache ResponseWriter.fresh r =
        (errorResponse 400 "s(ervice) parameter expected", []) := by
      unfold getWxUserInfo
      simp only [hs, writeError_fresh, StatusBadRequest, if_true]
    have h3 : snsAPI up cache ResponseWriter.fresh r =
        (errorResponse 400 "s(ervice) parameter expected", []) := by
      unfold snsAPI
      simp only [hs, writeError_fresh, StatusBadRequest, if_true]
    have h4 : createShorturl up cache ResponseWriter.fresh r =
        (errorResponse 400 "s(ervice) parameter expected", []) := by
      unfold createShorturl
      simp only [hs, writeError_fresh, StatusBadRequest, if_true]
    rw [h1, h2, h3, h4] at hres
    simpa using hres
  · unfold createWxQr
    simp only [hs, hreg, ht, writeError_fresh, StatusBadRequest, if_true, if_false]
  · unfold createWxQr
    simp only [hs, hreg, ht0, ht1, ht2, writeError_fresh, StatusBadRequest, if_true, if_false,
      or_self, not_false_eq_true]
  · unfold getWxUserInfo
    simp only [hs, hreg, ho, writeError_fresh, StatusBadRequest, if_true, if_false]
  · unfold createShorturl
    simp only [hs, hreg, hu, writeError_fresh, StatusBadRequest, if_true, if_false]
  · unfold snsAPI
    cases hscope : snsScope (r.FormValue "scope") with
    | none =>
      simp only [hs, hreg, writeError_fresh, StatusBadRequest, if_false, Option.isSome_none,
        Bool.false_eq_true]
    | some scope =>
      simp only [hs, hreg, hc, writeError_fresh, StatusBadRequest, if_true, if_false,
        Option.isSome_some]

/-- Witness of C5 (amended): `createWxQr` on `s=svc&t=weekly`. -/
theorem invalid_parameter_rejected_witness :
    createWxQr sampleUpstream sampleCache ResponseWriter.fresh
        ⟨[("s", "svc"), ("t", "weekly")]⟩ =
      (errorResponse 400 "t(ype) value must be \"temp\" or \"forever\"", []) :=
  ((invalid_parameter_rejected sampleUpstream sampleCache ⟨[("s", "svc"), ("t", "weekly")]⟩).2
    (by decide) sampleParams (by decide)).2.1 (by decide) (by decide) (by decide)

/-! ## The scope of `snsAPI` -/

theorem snsAPI_bad_scope (up : Upstream) (cache : ParamsCache) (r : Request)
    (hscope : snsScope (r.FormValue "scope") = none) :
    (snsAPI up cache ResponseWriter.fresh r).1.status = some 400 ∧
    (snsAPI up cache ResponseWriter.fresh r).2 = [] := by
  unfold snsAPI
  by_cases hs : r.FormValue "s" = ""
  · simp [hs, writeError_fresh, errorResponse, StatusBadRequest]
  cases hreg : cache.get (r.FormValue "s") with
  | none => simp [hs, hreg, writeError_fresh, errorResponse, StatusBadRequest]
  | some wxParams => simp [hs, hreg, hscope, writeError_fresh, errorResponse, StatusBadRequest]

theorem snsScope_other (scope : String)
    (h : scope ∉ ["", "base", "snsapi_base", "userinfo", "snsapi_userinfo"]) :
    snsScope scope = none := by
  simp only [List.mem_cons, List.mem_singleton, List.mem_nil_iff, or_false, not_or] at h
  obtain ⟨h1, h2, h3, h4, h5⟩ := h
  unfold snsScope
  simp [h1, h2, h3, h4, h5]

/-- C6: the `switch scope` of `snsAPI` maps `""`, `base` and `snsapi_base` to `base`, and
`userinfo` and `snsapi_userinfo` to `userinfo`; it yields nothing but these two values;
any other scope is answered with status 400 and no call to a collaborator; and the
outcome of `snsAPI` (response and calls) is the same for two requests with the same `s`
and `code` whose scopes are mapped to the same value, so that writing the canonical value
in place of a synonym or of the empty scope changes nothing. -/
theorem snsAPI_scope_normalised (up : Upstream) (cache : ParamsCache) :
    (snsScope "" = some "base" ∧ snsScope "base" = some "base" ∧
      snsScope "snsapi_base" = some "base" ∧ snsScope "userinfo" = some "userinfo" ∧
      snsScope "snsapi_userinfo" = some "userinfo") ∧
    (∀ scope sc, snsScope scope = some sc → sc = "base" ∨ sc = "userinfo") ∧
    (∀ r : Request,
      r.FormValue "scope" ∉ ["", "base", "snsapi_base", "userinfo", "snsapi_userinfo"] →
      (snsAPI up cache ResponseWriter.fresh r).1.status = some 400 ∧
      (snsAPI up cache ResponseWriter.fresh r).2 = []) ∧
    (∀ r r' : Request, r.FormValue "s" = r'.FormValue "s" →
      r.FormValue "code" = r'.FormValue "code" →
      snsScope (r.FormValue "scope") = snsScope (r'.FormValue "scope") →
      snsAPI up cache ResponseWriter.fresh r = snsAPI up cache ResponseWriter.fresh r') := by
  refine ⟨by decide, snsScope_values, fun r h => ?_, fun r r' h1 h2 h3 => ?_⟩
  · exact snsAPI_bad_scope up cache r (snsScope_other _ h)
  · unfold snsAPI
    simp only [h1, h2, h3]

/-- Witness of C6: `s=svc&code=c2&scope=snsapi_userinfo` against `scope=userinfo`. -/
theorem snsAPI_scope_normalised_witness :
    snsAPI sampleUpstream sampleCache ResponseWriter.fresh
        ⟨[("s", "svc"), ("code", "c2"), ("scope", "snsapi_userinfo")]⟩ =
      snsAPI sampleUpstream sampleCache ResponseWriter.fresh
        ⟨[("s", "svc"), ("code", "c2"), ("scope", "userinfo")]⟩ :=
  (snsAPI_scope_normalised sampleUpstream sampleCache).2.2.2
    ⟨[("s", "svc"), ("code", "c2"), ("scope", "snsapi_userinfo")]⟩
    ⟨[("s", "svc"), ("code", "c2"), ("scope", "userinfo")]⟩
    (by decide) (by decide) (by decide)

/-! ## Startup -/

theorem ParamsCache.get_set_self (cache : ParamsCache) (name : String) (p : WxParamsT) :
    (cache.set name p).get name = some p := by
  simp [ParamsCache.get, ParamsCache.set]

theorem find?_filter_ne (name other : String) (h : other ≠ name) :
    ∀ cache : List (String × WxParamsT),
      (cache.filter (fun kv => kv.1 ≠ name)).find? (fun kv => kv.1 = other) =
        cache.find? (fun kv => kv.1 = other) := by
  intro cache
  induction cache with
  | nil => rfl
  | cons kv rest ih =>
    rw [List.filter_cons]
    by_cases hk : kv.1 = name
    · have hko : decide (kv.1 = other) = false :=
        decide_eq_false (fun e => h (e.symm.trans hk))
      have hd : decide (kv.1 ≠ name) = false := decide_eq_false (fun hne => hne hk)
      rw [hd, List.find?_cons, hko]
      exact ih
    · have hd : decide (kv.1 ≠ name) = true := decide_eq_true hk
      rw [hd]
      simp only [if_true, List.find?_cons]
      rw [ih]

theorem ParamsCache.get_set_other (cache : ParamsCache) (name other : String) (p : WxParamsT)
    (h : other ≠ name) : (cache.set name p).get other = cache.get other := by
  have h' : ¬ (name = other) := fun e => h e.symm
  simp only [ParamsCache.get, ParamsCache.set, List.find?_cons, h', decide_False]
  rw [find?_filter_ne name other h cache]

/-- The check of the loop body that a valid service passes. -/
theorem registerService_ok (up : Upstream) (conf : ServiceConfT) (gw : Gateway)
    (service : ServiceT) (p : WxParamsT)
    (hnew : up.NewWxParams service.WxParams.Token service.WxParams.AppId
      service.WxParams.AppSecret service.WxParams.AesKey = .ok p)
    (hredir : service.RedirectURL ≠ "" → service.Endpoints.RedirectPath ≠ "") :
    (registerService up conf gw service).2 = none ∧
    (registerService up conf gw service).1.wxParamsCache =
      gw.wxParamsCache.set service.Name p := by
  unfold registerService
  simp only [hnew]
  by_cases hurl : service.RedirectURL = ""
  · by_cases hpath : service.Endpoints.RedirectPath = "" <;> simp [hurl, hpath]
  · have hpath := hredir hurl
    simp [hurl, hpath]

theorem registerService_redirect_error (up : Upstream) (conf : ServiceConfT) (gw : Gateway)
    (service : ServiceT)
    (hurl : service.RedirectURL ≠ "") (hpath : service.Endpoints.RedirectPath = "") :
    ∃ pre post, (registerService up conf gw service).2 = some (pre ++ service.Name ++ post) := by
  cases hnew : up.NewWxParams service.WxParams.Token service.WxParams.AppId
      service.WxParams.AppSecret service.WxParams.AesKey with
  | error err =>
    exact ⟨"failed to init servie ", ": " ++ err, by
      simp only [registerService, hnew, String.append_assoc]⟩
  | ok p =>
    exact ⟨"listen-endpoints/redirect-path in servie ",
      " must be specfied if you want to use redirect-url", by
      simp [registerService, hnew, hurl, hpath]⟩

theorem registerServices_append (up : Upstream) (conf : ServiceConfT) (l1 l2 : List ServiceT) :
    ∀ gw : Gateway, registerServices up conf gw (l1 ++ l2) =
      match registerServices up conf gw l1 with
      | (gw1, some err) => (gw1, some err)
      | (gw1, none) => registerServices up conf gw1 l2 := by
  induction l1 with
  | nil => intro gw; simp [registerServices]
  | cons s rest ih =>
    intro gw
    simp only [List.cons_append, registerServices]
    rcases hstep : registerService up conf gw s with ⟨gw1, _ | err⟩
    · exact ih gw1
    · rfl

theorem registerServices_valid (up : Upstream) (conf : ServiceConfT) (services : List ServiceT)
    (hvalid : ∀ s ∈ services, s.valid up) :
    ∀ gw : Gateway, (registerServices up conf gw services).2 = none := by
  induction services with
  | nil => intro gw; rfl
  | cons s rest ih =>
    intro gw
    obtain ⟨⟨p, hnew⟩, hredir⟩ := hvalid s (List.mem_cons_self _ _)
    have hstep := (registerService_ok up conf gw s p hnew hredir).1
    rcases hreg : registerService up conf gw s with ⟨gw1, e⟩
    rw [hreg] at hstep
    simp only at hstep
    subst hstep
    simp only [registerServices, hreg]
    exact ih (fun s' hs' => hvalid s' (List.mem_cons_of_mem _ hs')) gw1

theorem registerServices_cache_other (up : Upstream) (conf : ServiceConfT) (name : String)
    (services : List ServiceT) (hvalid : ∀ s ∈ services, s.valid up)
    (hname : ∀ s ∈ services, s.Name ≠ name) :
    ∀ gw : Gateway,
      (registerServices up conf gw services).1.wxParamsCache.get name =
        gw.wxParamsCache.get name := by
  induction services with
  | nil => intro gw; rfl
  | cons s rest ih =>
    intro gw
    obtain ⟨⟨p, hnew⟩, hredir⟩ := hvalid s (List.mem_cons_self _ _)
    obtain ⟨hstep, hcache⟩ := registerService_ok up conf gw s p hnew hredir
    rcases hreg : registerService up conf gw s with ⟨gw1, e⟩
    rw [hreg] at hstep hcache
    simp only at hstep hcache
    subst hstep
    simp only [registerServices, hreg]
    rw [ih (fun s' hs' => hvalid s' (List.mem_cons_of_mem _ hs'))
      (fun s' hs' => hname s' (List.mem_cons_of_mem _ hs')) gw1, hcache]
    exact ParamsCache.get_set_other _ _ _ _ (fun e => hname s (List.mem_cons_self _ _) e.symm)

theorem registerCommon_cache (conf : ServiceConfT) (gw : Gateway) :
    (registerCommon conf gw).wxParamsCache = gw.wxParamsCache := by
  unfold registerCommon
  simp only
  split_ifs <;> rfl

/-- C8 (counterexample): two valid services named `a`, with the app ids `app1` and `app2`.
`StartWxGateway` returns no error and reaches `http.ListenAndServe`, and the registry
holds for `a` the credentials of the second service only. -/
theorem duplicate_service_name_accepted :
    (StartWxGateway sampleUpstream
      (sampleConf [sampleService "a" "app1" "" "", sampleService "a" "app2" "" ""]) []).error?
        = none ∧
    (StartWxGateway sampleUpstream
      (sampleConf [sampleService "a" "app1" "" "", sampleService "a" "app2" "" ""]) []).listened
        = true ∧
    (StartWxGateway sampleUpstream
      (sampleConf [sampleService "a" "app1" "" "", sampleService "a" "app2" "" ""])
        []).gateway.wxParamsCache =
      [("a", { Token := "tk", AppId := "app2", AppSecret := "secret", AesKey := "" })] := by
  decide

/-- C8 (amended): when every service of the configuration is valid on its own, also when
two of them have the same name, `StartWxGateway` returns no error and reaches
`http.ListenAndServe`, and the registry holds for each name the credentials of the last
service of that name: a later service replaces the credentials of an earlier one of the
same name. -/
theorem duplicate_service_name_last_wins (up : Upstream) (conf : ServiceConfT)
    (cache : ParamsCache) (hvalid : ∀ s ∈ conf.Services, s.valid up) :
    (StartWxGateway up conf cache).error? = none ∧
    (StartWxGateway up conf cache).listened = true ∧
    ∀ pre s post p, conf.Services = pre ++ s :: post → (∀ s' ∈ post, s'.Name ≠ s.Name) →
      up.NewWxParams s.WxParams.Token s.WxParams.AppId s.WxParams.AppSecret
        s.WxParams.AesKey = .ok p →
      (StartWxGateway up conf cache).gateway.wxParamsCache.get s.Name = some p := by
  have hnone := registerServices_valid up conf conf.Services hvalid (Gateway.init cache)
  rcases hreg : registerServices up conf (Gateway.init cache) conf.Services with ⟨gw, e⟩
  rw [hreg] at hnone
  simp only at hnone
  subst hnone
  have hstart : StartWxGateway up conf cache =
      StartResult.served (conf.ListenHost ++ ":" ++ toString conf.ListenPort)
        (registerCommon conf gw) := by
    unfold StartWxGateway
    simp only [hreg]
  rw [hstart]
  refine ⟨rfl, rfl, fun pre s post p hsplit hpost hnew => ?_⟩
  simp only [StartResult.gateway, registerCommon_cache]
  have hpre : ∀ s' ∈ pre, s'.valid up := fun s' hs' =>
    hvalid s' (by rw [hsplit]; exact List.mem_append_left _ hs')
  have hs : s.valid up := hvalid s (by rw [hsplit]; simp)
  have hpostv : ∀ s' ∈ post, s'.valid up := fun s' hs' =>
    hvalid s' (by rw [hsplit]; simp [hs'])
  have happ := registerServices_append up conf pre (s :: post) (Gateway.init cache)
  rw [← hsplit, hreg] at happ
  have hpnone := registerServices_valid up conf pre hpre (Gateway.init cache)
  rcases hp : registerServices up conf (Gateway.init cache) pre with ⟨gw1, e1⟩
  rw [hp] at hpnone happ
  simp only at hpnone
  subst hpnone
  simp only [registerServices] at happ
  obtain ⟨hstep, hcache⟩ := registerService_ok up conf gw1 s p hnew hs.2
  rcases hsv : registerService up conf gw1 s with ⟨gw2, e2⟩
  rw [hsv] at hstep hcache happ
  simp only at hstep hcache
  subst hstep
  simp only at happ
  have hrest := registerServices_cache_other up conf s.Name post hpostv hpost gw2
  rw [← happ] at hrest
  simp only at hrest
  rw [hrest, hcache]
  exact ParamsCache.get_set_self _ _ _

/-- Witness of C8 (amended): the two services named `a`; the registry answers `a` with the
credentials of the second. -/
theorem duplicate_service_name_last_wins_witness :
    (StartWxGateway sampleUpstream
      (sampleConf [sampleService "a" "app1" "" "", sampleService "a" "app2" "" ""])
        []).gateway.wxParamsCache.get "a" =
      some { Token := "tk", AppId := "app2", AppSecret := "secret", AesKey := "" } :=
  (duplicate_service_name_last_wins sampleUpstream
    (sampleConf [sampleService "a" "app1" "" "", sampleService "a" "app2" "" ""]) []
    (by
      intro s hs
      simp only [sampleConf, List.mem_cons, List.mem_singleton, List.mem_nil_iff,
        or_false] at hs
      rcases hs with h | h <;> subst h <;> exact ⟨⟨_, rfl⟩, fun h => absurd rfl h⟩)).2.2
    [sampleService "a" "app1" "" ""] (sampleService "a" "app2" "" "") [] _ rfl
    (fun _ h => absurd h (List.not_mem_nil _)) rfl

/-- C9: when a service of the configuration has a redirect URL and no redirect path, and
the services before it register without error, `StartWxGateway` returns an error whose
text contains the name of that service and does not reach `http.ListenAndServe`; and the
loop body returns no error for a service with a redirect URL and a redirect path whose
credentials `NewWxParams` accepts. -/
theorem redirect_url_needs_redirect_path (up : Upstream) (conf : ServiceConfT)
    (cache : ParamsCache) (pre post : List ServiceT) (service : ServiceT)
    (hsplit : conf.Services = pre ++ service :: post)
    (hpre : (registerServices up conf (Gateway.init cache) pre).2 = none)
    (hurl : service.RedirectURL ≠ "") (hpath : service.Endpoints.RedirectPath = "") :
    (∃ before after,
      (StartWxGateway up conf cache).error? = some (before ++ service.Name ++ after)) ∧
    (StartWxGateway up conf cache).listened = false ∧
    (∀ (gw : Gateway) (other : ServiceT) (p : WxParamsT),
      other.RedirectURL ≠ "" → other.Endpoints.RedirectPath ≠ "" →
      up.NewWxParams other.WxParams.Token other.WxParams.AppId other.WxParams.AppSecret
        other.WxParams.AesKey = .ok p →
      (registerService up conf gw other).2 = none) := by
  have happ := registerServices_append up conf pre (service :: post) (Gateway.init cache)
  rw [← hsplit] at happ
  rcases hp : registerServices up conf (Gateway.init cache) pre with ⟨gw1, e1⟩
  rw [hp] at hpre happ
  simp only at hpre
  subst hpre
  obtain ⟨before, after, herr⟩ := registerService_redirect_error up conf gw1 service hurl hpath
  rcases hsv : registerService up conf gw1 service with ⟨gw2, e2⟩
  rw [hsv] at herr
  simp only at herr
  subst herr
  simp only [registerServices, hsv] at happ
  have hstart : StartWxGateway up conf cache =
      StartResult.failed (before ++ service.Name ++ after) gw2 := by
    unfold StartWxGateway
    simp only [happ]
  rw [hstart]
  exact ⟨⟨before, after, rfl⟩, rfl, fun gw other p _ hp2 hnew =>
    (registerService_ok up conf gw other p hnew (fun _ => hp2)).1⟩

/-- Witness of C9: the service `a` registers, the service `b` has the redirect URL
`http://b/after` and no redirect path. -/
theorem redirect_url_needs_redirect_path_witness :
    (StartWxGateway sampleUpstream
      (sampleConf [sampleService "a" "app1" "" "",
        sampleService "b" "app2" "http://b/after" ""]) []).error? =
      some ("listen-endpoints/redirect-path in servie b must be specfied " ++
        "if you want to use redirect-url") ∧
    (StartWxGateway sampleUpstream
      (sampleConf [sampleService "a" "app1" "" "",
        sampleService "b" "app2" "http://b/after" ""]) []).listened = false :=
  ⟨by decide,
   (redirect_url_needs_redirect_path sampleUpstream
    (sampleConf [sampleService "a" "app1" "" "",
      sampleService "b" "app2" "http://b/after" ""]) []
    [sampleService "a" "app1" "" ""] [] (sampleService "b" "app2" "http://b/after" "")
    rfl (by decide) (by decide) (by decide)).2.1⟩

/-! ## The health check -/

end WxGateway
